import Mathlib

/-!
Shallow embedding of the acoustic event-detection engine of
`src/project/hooks/useMicrophoneListener.ts` (Smart-Sound-Alert).

Spectra (`getByteFrequencyData` output) are lists of byte magnitudes,
modelled as `List ℕ`; JavaScript numeric arithmetic is modelled over `ℚ`
with `Math.round`, `Math.floor`, `Math.ceil` made explicit.
-/

namespace SmartSound

/-- The closed enumeration of signature kinds (`'fire' | 'doorbell' | 'baby'`). -/
inductive SKind where
  | fire
  | doorbell
  | baby
deriving DecidableEq, Repr

/-- A classifier's provisional detection, as returned by
`detectFireAlarm` / `detectDoorbell` / `detectBabyCrying`. -/
structure Candidate where
  type : SKind
  confidence : ℚ
  frequency : ℚ
  amplitude : ℕ
deriving DecidableEq, Repr

/-- A gated, emitted detection (the `onSoundDetected` payload). -/
structure DetectionEvent where
  type : SKind
  confidence : ℚ
  timestamp : ℕ
  frequency : ℚ
  amplitude : ℕ
deriving DecidableEq, Repr

/-- The consumer-supplied `enabledSounds` mask. -/
structure Mask where
  fire : Bool
  doorbell : Bool
  baby : Bool
deriving DecidableEq, Repr

/-- JavaScript `Math.round` (round half toward +∞). -/
def jsRound (q : ℚ) : ℤ := ⌊q + 1/2⌋

/-- `nyquist = sampleRate / 2`. -/
def nyquist (sampleRate : ℚ) : ℚ := sampleRate / 2

/-- The in-bounds bin indices of a window `[lo, hi]`, in increasing order:
exactly the indices visited by a loop clamped to `[0, L-1]` (fire), or by a
loop `for i = lo; i ≤ hi && i < L` with `0 ≤ lo` (doorbell / baby). -/
def binIdx (L : ℕ) (lo hi : ℤ) : List ℕ :=
  (List.range L).filter (fun i => lo ≤ (i : ℤ) ∧ (i : ℤ) ≤ hi)

/-- Peak magnitude over a window (`peak = Math.max(peak, data[i])`, starting at 0). -/
def segPeak (f : List ℕ) (idx : List ℕ) : ℕ :=
  idx.foldl (fun p i => max p (f.getD i 0)) 0

/-- Average magnitude over a window (`count > 0 ? sum / count : 0`). -/
def segAvg (f : List ℕ) (idx : List ℕ) : ℚ :=
  if idx.length = 0 then 0
  else (idx.foldl (fun s i => s + (f.getD i 0 : ℚ)) 0) / idx.length

/-- Peak magnitude together with its bin frequency: whenever a bin strictly
exceeds the running peak, both the peak and `peakFreq = i * nyquist / bufferLength`
are replaced. -/
def segPeakFreq (f : List ℕ) (idx : List ℕ) (nyq : ℚ) (L : ℕ) : ℕ × ℚ :=
  idx.foldl
    (fun p i => if f.getD i 0 > p.1 then (f.getD i 0, (i : ℚ) * nyq / L) else p)
    (0, 0)

/-! ### Fire-alarm classifier (`detectFireAlarm`) -/

/-- `getFrequencyBin(3100)` = `Math.round(3100 * bufferLength / nyquist)`. -/
def fireTargetBin (L : ℕ) (sr : ℚ) : ℤ := jsRound (3100 * L / nyquist sr)

/-- `getFrequencyBin(6200)`. -/
def fireHarmonicBin (L : ℕ) (sr : ℚ) : ℤ := jsRound (6200 * L / nyquist sr)

/-- Bins of the fundamental window, `targetBin ± 8` clamped to `[0, L-1]`. -/
def fireFundIdx (L : ℕ) (sr : ℚ) : List ℕ :=
  binIdx L (fireTargetBin L sr - 8) (fireTargetBin L sr + 8)

/-- Bins of the harmonic window, `harmonicBin ± 6` clamped to `[0, L-1]`. -/
def fireHarmIdx (L : ℕ) (sr : ℚ) : List ℕ :=
  binIdx L (fireHarmonicBin L sr - 6) (fireHarmonicBin L sr + 6)

/-- `fundamentalPeak`. -/
def firePeak (f : List ℕ) (sr : ℚ) : ℕ := segPeak f (fireFundIdx f.length sr)

/-- `fundamentalAvg`. -/
def fireAvg (f : List ℕ) (sr : ℚ) : ℚ := segAvg f (fireFundIdx f.length sr)

/-- `harmonicPeak`. -/
def fireHarmPeak (f : List ℕ) (sr : ℚ) : ℕ := segPeak f (fireHarmIdx f.length sr)

/-- The fire confidence formula
`fundamentalScore * 0.5 + harmonicScore * 0.3 + avgScore * 0.2`. -/
def fireConfidence (f : List ℕ) (sr : ℚ) : ℚ :=
  min ((firePeak f sr : ℚ) / 200) 1 * (1/2)
    + min ((fireHarmPeak f sr : ℚ) / 120) 1 * (3/10)
    + min (fireAvg f sr / 80) 1 * (1/5)

/-- `detectFireAlarm`. -/
def detectFireAlarm (enabled : Bool) (f : List ℕ) (sr : ℚ) : Option Candidate :=
  if !enabled then none
  else if 120 < firePeak f sr ∧ 40 < fireAvg f sr ∧ 60 < fireHarmPeak f sr then
    some { type := .fire
           confidence := min (fireConfidence f sr) (49/50)
           frequency := 3100
           amplitude := firePeak f sr }
  else none

/-! ### Doorbell classifier (`detectDoorbell`) -/

/-- The low doorbell range `(min, max, weight)`: 350-550 Hz, weight 0.3. -/
def dbR1 : ℚ × ℚ × ℚ := (350, 550, 3/10)

/-- The mid doorbell range: 700-1000 Hz, weight 0.4. -/
def dbR2 : ℚ × ℚ × ℚ := (700, 1000, 2/5)

/-- The high doorbell range: 1200-1600 Hz, weight 0.3. -/
def dbR3 : ℚ × ℚ × ℚ := (1200, 1600, 3/10)

/-- The doorbell `ranges` array. -/
def dbRanges : List (ℚ × ℚ × ℚ) := [dbR1, dbR2, dbR3]

/-- Bins of a Hz range: `Math.floor(min * L / nyquist) .. Math.ceil(max * L / nyquist)`
intersected with `[0, L-1]`. -/
def rangeIdx (L : ℕ) (sr : ℚ) (lo hi : ℚ) : List ℕ :=
  binIdx L ⌊lo * L / nyquist sr⌋ ⌈hi * L / nyquist sr⌉

/-- `rangePeak` of a doorbell range. -/
def rangePeak (f : List ℕ) (sr : ℚ) (r : ℚ × ℚ × ℚ) : ℕ :=
  segPeak f (rangeIdx f.length sr r.1 r.2.1)

/-- `rangeAvg` of a doorbell range. -/
def rangeAvg (f : List ℕ) (sr : ℚ) (r : ℚ × ℚ × ℚ) : ℚ :=
  segAvg f (rangeIdx f.length sr r.1 r.2.1)

/-- `peakFreq` of a doorbell range. -/
def rangePeakFreq (f : List ℕ) (sr : ℚ) (r : ℚ × ℚ × ℚ) : ℚ :=
  (segPeakFreq f (rangeIdx f.length sr r.1 r.2.1) (nyquist sr) f.length).2

/-- The doorbell accumulator `(weightedScore, activeRanges, dominantFreq, maxAmplitude)`. -/
structure DbAcc where
  ws : ℚ
  active : ℕ
  domFreq : ℚ
  maxAmp : ℕ
deriving DecidableEq, Repr

/-- The combined guard of the `forEach` body: the range has at least one bin
(`count > 0`), and `rangePeak > 65 && rangeAvg > 25` marks it active. -/
abbrev rangeActive (f : List ℕ) (sr : ℚ) (r : ℚ × ℚ × ℚ) : Prop :=
  0 < (rangeIdx f.length sr r.1 r.2.1).length
    ∧ 65 < rangePeak f sr r ∧ 25 < rangeAvg f sr r

/-- One iteration of the doorbell `ranges.forEach` body. -/
def dbStep (f : List ℕ) (sr : ℚ) (st : DbAcc) (r : ℚ × ℚ × ℚ) : DbAcc :=
  if rangeActive f sr r then
    { ws := st.ws + ((rangePeak f sr r : ℚ) + rangeAvg f sr r) * r.2.2
      active := st.active + 1
      domFreq := if st.maxAmp < rangePeak f sr r then rangePeakFreq f sr r else st.domFreq
      maxAmp := if st.maxAmp < rangePeak f sr r then rangePeak f sr r else st.maxAmp }
  else st

/-- The doorbell accumulator after the `forEach` over the three ranges. -/
def dbState (f : List ℕ) (sr : ℚ) : DbAcc :=
  dbRanges.foldl (dbStep f sr) ⟨0, 0, 0, 0⟩

/-- `detectDoorbell`. -/
def detectDoorbell (enabled : Bool) (f : List ℕ) (sr : ℚ) : Option Candidate :=
  if !enabled then none
  else if 2 ≤ (dbState f sr).active ∧ 180 < (dbState f sr).ws then
    some { type := .doorbell
           confidence := min ((dbState f sr).ws / 350) (19/20)
           frequency := (dbState f sr).domFreq
           amplitude := (dbState f sr).maxAmp }
  else none

/-! ### Baby-cry classifier (`detectBabyCrying`) -/

/-- `analyzeRange`: peak, average and peak frequency of a Hz range. -/
def analyzeRange (f : List ℕ) (sr : ℚ) (lo hi : ℚ) : ℕ × ℚ × ℚ :=
  let idx := rangeIdx f.length sr lo hi
  ((segPeakFreq f idx (nyquist sr) f.length).1,
   segAvg f idx,
   (segPeakFreq f idx (nyquist sr) f.length).2)

/-- The baby-cry confidence formula
`fundamentalScore * 0.4 + harmonicScore * 0.4 + avgScore * 0.2`. -/
def babyConfidence (f : List ℕ) (sr : ℚ) : ℚ :=
  min (((analyzeRange f sr 250 600).1 : ℚ) / 150) 1 * (2/5)
    + min ((((analyzeRange f sr 800 1400).1 : ℚ)
            + ((analyzeRange f sr 1600 2800).1 : ℚ)
            + ((analyzeRange f sr 3000 4500).1 : ℚ)) / 200) 1 * (2/5)
    + min ((analyzeRange f sr 250 600).2.1 / 70) 1 * (1/5)

/-- `detectBabyCrying`. -/
def detectBabyCrying (enabled : Bool) (f : List ℕ) (sr : ℚ) : Option Candidate :=
  if !enabled then none
  else if 80 < (analyzeRange f sr 250 600).1
          ∧ 35 < (analyzeRange f sr 250 600).2.1
          ∧ (45 < (analyzeRange f sr 800 1400).1
             ∨ 45 < (analyzeRange f sr 1600 2800).1
             ∨ (45 : ℚ) * (4/5) < ((analyzeRange f sr 3000 4500).1 : ℚ)) then
    some { type := .baby
           confidence := min (babyConfidence f sr) (23/25)
           frequency := (analyzeRange f sr 250 600).2.2
           amplitude := (analyzeRange f sr 250 600).1 }
  else none

/-! ### Event gate and engine cycle (`analyzeAudio`) -/

/-- `lastDetectionRef.current`: per-kind last emission time, absent before first fire. -/
def GateState := SKind → Option ℕ

/-- The gate state of a fresh session: `lastDetectionRef.current` cleared to an
empty record. -/
def emptyGate : GateState := fun _ => none

/-- `cooldownPeriod = detection.type === 'fire' ? 3000 : 8000`. -/
def cooldownPeriod (k : SKind) : ℤ := if k = .fire then 3000 else 8000

/-- `confidenceThreshold = detection.type === 'fire' ? 0.75 : 0.7`. -/
def confidenceThreshold (k : SKind) : ℚ := if k = .fire then 3/4 else 7/10

/-- One candidate through the gate: emit and stamp the state iff
`now - lastDetection > cooldownPeriod && confidence > confidenceThreshold`. -/
def gateStep (now : ℕ) (st : GateState) (c : Candidate) : Option DetectionEvent × GateState :=
  let last : ℕ := (st c.type).getD 0
  if cooldownPeriod c.type < (now : ℤ) - (last : ℤ)
      ∧ confidenceThreshold c.type < c.confidence then
    (some ⟨c.type, c.confidence, now, c.frequency, c.amplitude⟩,
     fun k => if k = c.type then some now else st k)
  else (none, st)

/-- The detection half of one `analyzeAudio` cycle: run the three classifiers,
then push each candidate through the gate in order. -/
def runCycle (mask : Mask) (f : List ℕ) (sr : ℚ) (st : GateState) (now : ℕ) :
    List DetectionEvent × GateState :=
  (([detectFireAlarm mask.fire f sr,
     detectDoorbell mask.doorbell f sr,
     detectBabyCrying mask.baby f sr].filterMap id).foldl
    (fun acc c =>
      let r := gateStep now acc.2 c
      (acc.1 ++ r.1.toList, r.2))
    ([], st))

/-! ### Level tracking (`analyzeAudio` RMS / smoothing) -/

/-- Mean of squared normalized samples, `sum((d-128)/128)^2 / length`; its square
root is the frame RMS. -/
def meanSquare (timeData : List ℕ) : ℚ :=
  (timeData.foldl (fun s d => s + (((d : ℚ) - 128) / 128) ^ 2) 0) / timeData.length

/-- `targetLevel = Math.min(rms * 5, 1)`. -/
def targetLevel (rms : ℚ) : ℚ := min (rms * 5) 1

/-- `smoothedLevel += (targetLevel - smoothedLevel) * 0.25`. -/
def levelStep (level target : ℚ) : ℚ := level + (target - level) * (1/4)

/-- The smoothed level after `n` cycles at a fixed target. -/
def levelIter (target level : ℚ) : ℕ → ℚ
  | 0 => level
  | n + 1 => levelStep (levelIter target level n) target

/-- One whole `analyzeAudio` cycle: gate outcome of the spectrum, plus the level
update from the frame's RMS. The frame is never validated: every frame is
processed. -/
def analyzeCycle (mask : Mask) (f : List ℕ) (sr : ℚ) (rms : ℚ)
    (st : GateState) (level : ℚ) (now : ℕ) :
    (List DetectionEvent × GateState) × ℚ :=
  (runCycle mask f sr st now, levelStep level (targetLevel rms))

/-! ### Session lifecycle -/

/-- The cross-cycle session state: gate timestamps and the smoothed level. -/
structure SessionState where
  gate : GateState
  level : ℚ

/-- `stopListening`: zeroes the smoothed level (`smoothedLevelRef.current = 0`);
it does not touch the detection history. -/
def stopListening (s : SessionState) : SessionState := { s with level := 0 }

/-- `startListening`: resets the detection history (`lastDetectionRef.current`
cleared to an empty record); it does not touch the smoothed level. -/
def startListening (s : SessionState) : SessionState := { s with gate := emptyGate }

/-! ### Concrete test inputs

At `sampleRate = 12400` the Nyquist frequency is 6200 Hz, so a 16-bin spectrum
places the 3100 Hz fire fundamental at bin 8 and its 6200 Hz harmonic at
bin 16 (clamped), and all classifier ranges fall inside the spectrum. -/

/-- A saturated spectrum: 16 bins all at the maximum byte magnitude 255. -/
def satSpec : List ℕ :=
  [255, 255, 255, 255, 255, 255, 255, 255, 255, 255, 255, 255, 255, 255, 255, 255]

/-- A moderate doorbell spectrum: magnitude 100 in bins 0-5, silence above. -/
def midDoorbell : List ℕ :=
  [100, 100, 100, 100, 100, 100, 0, 0, 0, 0, 0, 0, 0, 0, 0, 0]

/-- A 64-bin spectrum whose fire fundamental window (bins 24-40) holds
magnitude 150 and whose harmonic window (bins 58-63) holds magnitude 200. -/
def loudHarmonic : List ℕ :=
  [0, 0, 0, 0, 0, 0, 0, 0, 0, 0, 0, 0, 0, 0, 0, 0,
   0, 0, 0, 0, 0, 0, 0, 0, 150, 150, 150, 150, 150, 150, 150, 150,
   150, 150, 150, 150, 150, 150, 150, 150, 150, 0, 0, 0, 0, 0, 0, 0,
   0, 0, 0, 0, 0, 0, 0, 0, 0, 0, 200, 200, 200, 200, 200, 200]

/-- The mask with every kind enabled. -/
def allOn : Mask := ⟨true, true, true⟩

/-- The mask with every kind disabled. -/
def allOff : Mask := ⟨false, false, false⟩

/-! ## Helper lemmas -/

lemma gateStep_emit (now : ℕ) (st : GateState) (c : Candidate)
    (h1 : cooldownPeriod c.type < (now : ℤ) - (((st c.type).getD 0 : ℕ) : ℤ))
    (h2 : confidenceThreshold c.type < c.confidence) :
    gateStep now st c
      = (some ⟨c.type, c.confidence, now, c.frequency, c.amplitude⟩,
         fun k => if k = c.type then some now else st k) := by
  simp [gateStep, h1, h2]

lemma gateStep_drop (now : ℕ) (st : GateState) (c : Candidate)
    (h : ¬ (cooldownPeriod c.type < (now : ℤ) - (((st c.type).getD 0 : ℕ) : ℤ)
            ∧ confidenceThreshold c.type < c.confidence)) :
    gateStep now st c = (none, st) := by
  simp only [gateStep]
  rw [if_neg h]

lemma levelIter_closed (t l : ℚ) (n : ℕ) :
    levelIter t l n = t + (3/4) ^ n * (l - t) := by
  induction n with
  | zero => simp [levelIter]
  | succ n ih => rw [levelIter, levelStep, ih]; ring

/-! ## Claims -/

/-- C1: the event gate emits a DetectionEvent for a candidate iff the candidate's
confidence strictly exceeds the per-kind threshold (0.75 for Fire, 0.70 for
Doorbell and BabyCry) and `now - lastEmittedAt` strictly exceeds the per-kind
cooldown (3000 ms for Fire, 8000 ms otherwise); on emission the state for that
kind is stamped with `now`, and a failing candidate is dropped with no state
change. Two over-threshold Fire candidates 1000 ms apart yield exactly one
event; 3500 ms apart they yield two. -/
theorem C1_event_gate (st : GateState) (now : ℕ) (c : Candidate) :
    (confidenceThreshold .fire = 3/4 ∧ confidenceThreshold .doorbell = 7/10
      ∧ confidenceThreshold .baby = 7/10 ∧ cooldownPeriod .fire = 3000
      ∧ cooldownPeriod .doorbell = 8000 ∧ cooldownPeriod .baby = 8000) ∧
    ((gateStep now st c).1.isSome
      ↔ (confidenceThreshold c.type < c.confidence
          ∧ cooldownPeriod c.type < (now : ℤ) - (((st c.type).getD 0 : ℕ) : ℤ))) ∧
    (confidenceThreshold c.type < c.confidence
      → cooldownPeriod c.type < (now : ℤ) - (((st c.type).getD 0 : ℕ) : ℤ)
      → gateStep now st c
          = (some ⟨c.type, c.confidence, now, c.frequency, c.amplitude⟩,
             fun k => if k = c.type then some now else st k)) ∧
    (¬ (confidenceThreshold c.type < c.confidence
          ∧ cooldownPeriod c.type < (now : ℤ) - (((st c.type).getD 0 : ℕ) : ℤ))
      → gateStep now st c = (none, st)) ∧
    (∀ (c1 c2 : Candidate) (t : ℕ), c1.type = .fire → c2.type = .fire
      → 3/4 < c1.confidence → 3/4 < c2.confidence → 3000 < (t : ℤ)
      → ((gateStep t emptyGate c1).1.isSome
          ∧ (gateStep (t + 1000) (gateStep t emptyGate c1).2 c2).1 = none
          ∧ (gateStep (t + 3500) (gateStep t emptyGate c1).2 c2).1.isSome)) := by
  refine ⟨⟨by simp [confidenceThreshold], by simp [confidenceThreshold],
      by simp [confidenceThreshold], by simp [cooldownPeriod],
      by simp [cooldownPeriod], by simp [cooldownPeriod]⟩, ?_, ?_, ?_, ?_⟩
  · by_cases h : cooldownPeriod c.type < (now : ℤ) - (((st c.type).getD 0 : ℕ) : ℤ)
        ∧ confidenceThreshold c.type < c.confidence
    · rw [gateStep_emit now st c h.1 h.2]
      simp only [Option.isSome_some, true_iff]
      exact ⟨h.2, h.1⟩
    · rw [gateStep_drop now st c h]
      simp only [Option.isSome_none, Bool.false_eq_true, false_iff]
      exact fun hc => h ⟨hc.2, hc.1⟩
  · intro h2 h1
    exact gateStep_emit now st c h1 h2
  · intro h
    refine gateStep_drop now st c fun hc => h ⟨hc.2, hc.1⟩
  · intro c1 c2 t h1 h2 hc1 hc2 ht
    have e1 : gateStep t emptyGate c1
        = (some ⟨c1.type, c1.confidence, t, c1.frequency, c1.amplitude⟩,
           fun k => if k = c1.type then some t else emptyGate k) := by
      refine gateStep_emit t emptyGate c1 ?_ ?_
      · simpa [emptyGate, cooldownPeriod, h1] using ht
      · simpa [confidenceThreshold, h1] using hc1
    have hst : (gateStep t emptyGate c1).2 c2.type = some t := by
      rw [e1, h2, h1]
      simp
    refine ⟨by rw [e1]; simp, ?_, ?_⟩
    · have hd : gateStep (t + 1000) (gateStep t emptyGate c1).2 c2
          = (none, (gateStep t emptyGate c1).2) := by
        refine gateStep_drop _ _ c2 ?_
        rw [hst]
        simp only [Option.getD_some, cooldownPeriod, h2, if_pos]
        intro hc
        have h3k := hc.1
        omega
      rw [hd]
    · have he : gateStep (t + 3500) (gateStep t emptyGate c1).2 c2
          = (some ⟨c2.type, c2.confidence, t + 3500, c2.frequency, c2.amplitude⟩,
             fun k => if k = c2.type then some (t + 3500)
                      else (gateStep t emptyGate c1).2 k) := by
        refine gateStep_emit _ _ c2 ?_ ?_
        · rw [hst]
          simp only [Option.getD_some, cooldownPeriod, h2, if_pos]
          omega
        · simpa [confidenceThreshold, h2] using hc2
      rw [he]
      simp

/-- C1 witness: a Fire candidate of confidence 0.8 at time 10000 over a fresh
gate emits; a second one 1000 ms later is suppressed; 3500 ms later it emits. -/
theorem C1_event_gate_witness :
    (gateStep 10000 emptyGate ⟨.fire, 4/5, 3100, 200⟩).1.isSome
      ∧ (gateStep (10000 + 1000) (gateStep 10000 emptyGate ⟨.fire, 4/5, 3100, 200⟩).2
            ⟨.fire, 4/5, 3100, 200⟩).1 = none
      ∧ (gateStep (10000 + 3500) (gateStep 10000 emptyGate ⟨.fire, 4/5, 3100, 200⟩).2
            ⟨.fire, 4/5, 3100, 200⟩).1.isSome :=
  (C1_event_gate emptyGate 10000 ⟨.fire, 4/5, 3100, 200⟩).2.2.2.2
    ⟨.fire, 4/5, 3100, 200⟩ ⟨.fire, 4/5, 3100, 200⟩ 10000 rfl rfl
    (by norm_num) (by norm_num) (by norm_num)

/-- C4: each cycle computes `targetLevel = min(rms * 5, 1)` and smooths
`level += (targetLevel - level) * 0.25`; holding a fixed target, the level
approaches it monotonically without overshooting, stays in the unit interval,
and converges within any epsilon after finitely many cycles. -/
theorem C4_level_smoothing (rms l : ℚ) (n : ℕ)
    (hr : 0 ≤ rms) (hl0 : 0 ≤ l) (hl1 : l ≤ 1) :
    (targetLevel rms = min (rms * 5) 1) ∧
    (0 ≤ targetLevel rms ∧ targetLevel rms ≤ 1) ∧
    (levelIter (targetLevel rms) l (n + 1)
      = levelStep (levelIter (targetLevel rms) l n) (targetLevel rms)) ∧
    (l ≤ targetLevel rms
      → levelIter (targetLevel rms) l n ≤ levelIter (targetLevel rms) l (n + 1)
        ∧ levelIter (targetLevel rms) l n ≤ targetLevel rms) ∧
    (targetLevel rms ≤ l
      → levelIter (targetLevel rms) l (n + 1) ≤ levelIter (targetLevel rms) l n
        ∧ targetLevel rms ≤ levelIter (targetLevel rms) l n) ∧
    (0 ≤ levelIter (targetLevel rms) l n ∧ levelIter (targetLevel rms) l n ≤ 1) ∧
    (∀ ε : ℚ, 0 < ε → ∃ N : ℕ, ∀ m : ℕ, N ≤ m
      → |levelIter (targetLevel rms) l m - targetLevel rms| < ε) := by
  set t := targetLevel rms with hdef
  have ht0 : 0 ≤ t := le_min (by positivity) zero_le_one
  have ht1 : t ≤ 1 := min_le_right _ _
  have hp0 : (0 : ℚ) ≤ (3/4) ^ n := by positivity
  have hp1 : ((3:ℚ)/4) ^ n ≤ 1 := pow_le_one₀ (by norm_num) (by norm_num)
  refine ⟨rfl, ⟨ht0, ht1⟩, rfl, ?_, ?_, ?_, ?_⟩
  · intro hup
    have key : 0 ≤ (3/4 : ℚ) ^ n * (t - l) := mul_nonneg hp0 (by linarith)
    rw [levelIter_closed, levelIter_closed, pow_succ]
    constructor <;> nlinarith [key]
  · intro hdn
    have key : 0 ≤ (3/4 : ℚ) ^ n * (l - t) := mul_nonneg hp0 (by linarith)
    rw [levelIter_closed, levelIter_closed, pow_succ]
    constructor <;> nlinarith [key]
  · rw [levelIter_closed]
    constructor <;>
      nlinarith [mul_nonneg hp0 hl0, mul_nonneg (sub_nonneg.mpr hp1) ht0,
        mul_nonneg (sub_nonneg.mpr hp1) (sub_nonneg.mpr ht1),
        mul_nonneg hp0 (sub_nonneg.mpr hl1)]
  · intro ε hε
    obtain ⟨N, hN⟩ := exists_pow_lt_of_lt_one hε (by norm_num : (3:ℚ)/4 < 1)
    refine ⟨N, fun m hm => ?_⟩
    have hq0 : (0 : ℚ) ≤ (3/4) ^ m := by positivity
    have habs : |l - t| ≤ 1 := by
      rw [abs_le]
      constructor <;> linarith
    calc |levelIter t l m - t| = (3/4) ^ m * |l - t| := by
          rw [levelIter_closed]
          rw [show t + (3/4) ^ m * (l - t) - t = (3/4) ^ m * (l - t) by ring]
          rw [abs_mul, abs_of_nonneg hq0]
      _ ≤ (3/4) ^ m * 1 := by
          exact mul_le_mul_of_nonneg_left habs hq0
      _ = (3/4) ^ m := mul_one _
      _ ≤ (3/4) ^ N := pow_le_pow_of_le_one (by norm_num) (by norm_num) hm
      _ < ε := hN

/-- C4 witness: at target `min(2.5, 1) = 1` starting from level 0, after three
cycles the level is still within the unit interval. -/
theorem C4_level_smoothing_witness :
    0 ≤ levelIter (targetLevel (1/2)) 0 3 ∧ levelIter (targetLevel (1/2)) 0 3 ≤ 1 :=
  (C4_level_smoothing (1/2) 0 3 (by norm_num) (by norm_num) (by norm_num)).2.2.2.2.2.1

/-- C2: the FireAlarm classifier produces a candidate exactly when the
fundamental window (the wide bin window around the 3100 Hz bin) has peak > 120
and average > 40 and the harmonic window (around the 6200 Hz bin) has
peak > 60; the candidate's confidence is then
`0.5 * min(fundPeak/200, 1) + 0.3 * min(harmPeak/120, 1) + 0.2 * min(fundAvg/80, 1)`
clamped to at most 0.98. -/
theorem C2_fire_classifier (f : List ℕ) (sr : ℚ) :
    ((detectFireAlarm true f sr).isSome
      ↔ (120 < firePeak f sr ∧ 40 < fireAvg f sr ∧ 60 < fireHarmPeak f sr)) ∧
    (∀ c, detectFireAlarm true f sr = some c
      → c.confidence
          = min ((1/2) * min ((firePeak f sr : ℚ) / 200) 1
              + (3/10) * min ((fireHarmPeak f sr : ℚ) / 120) 1
              + (1/5) * min (fireAvg f sr / 80) 1) (49/50)) := by
  constructor
  · unfold detectFireAlarm
    split_ifs with h1 h2
    · simp at h1
    · simpa using h2
    · simpa using h2
  · intro c hc
    unfold detectFireAlarm at hc
    split_ifs at hc with h1 h2
    injection hc with hc
    subst hc
    show min (fireConfidence f sr) (49/50) = _
    unfold fireConfidence
    congr 1
    ring

/-- C3: no candidate ever reports confidence above the kind-specific ceiling
(0.98 Fire, 0.95 Doorbell, 0.92 BabyCry), and the gate emits events carrying
the candidate's confidence unchanged, so no event exceeds it either. -/
theorem C3_confidence_ceiling (f : List ℕ) (sr : ℚ) (e : Bool) (c : Candidate) :
    (detectFireAlarm e f sr = some c → c.confidence ≤ 49/50) ∧
    (detectDoorbell e f sr = some c → c.confidence ≤ 19/20) ∧
    (detectBabyCrying e f sr = some c → c.confidence ≤ 23/25) ∧
    (∀ (now : ℕ) (st : GateState) (ev : DetectionEvent) (st2 : GateState),
      gateStep now st c = (some ev, st2) → ev.confidence = c.confidence) := by
  refine ⟨?_, ?_, ?_, ?_⟩
  · intro h
    unfold detectFireAlarm at h
    split_ifs at h
    injection h with h
    subst h
    exact min_le_right _ _
  · intro h
    unfold detectDoorbell at h
    split_ifs at h
    injection h with h
    subst h
    exact min_le_right _ _
  · intro h
    unfold detectBabyCrying at h
    split_ifs at h
    injection h with h
    subst h
    exact min_le_right _ _
  · intro now st ev st2 h
    unfold gateStep at h
    dsimp only at h
    split_ifs at h with hcond
    · rw [Prod.mk.injEq] at h
      injection h.1 with h1
      subst h1
      rfl
    · rw [Prod.mk.injEq] at h
      exact absurd h.1 (by simp)

/-- C7: a classifier disabled through the mask returns no candidate for any
spectrum; an all-disabled cycle emits nothing and leaves the gate state
unchanged, so re-enabling resumes detection on the very next cycle exactly as
if the disabled cycle had never run. -/
theorem C7_enabled_mask (f g : List ℕ) (sr sr2 : ℚ) (st : GateState)
    (now now2 : ℕ) (m : Mask) :
    detectFireAlarm false f sr = none
    ∧ detectDoorbell false f sr = none
    ∧ detectBabyCrying false f sr = none
    ∧ runCycle allOff f sr st now = ([], st)
    ∧ runCycle m g sr2 (runCycle allOff f sr st now).2 now2
        = runCycle m g sr2 st now2 := by
  have hr : runCycle allOff f sr st now = ([], st) := rfl
  exact ⟨rfl, rfl, rfl, hr, by rw [hr]⟩

/-! ### Concrete evaluations at sampleRate 12400 -/

lemma nyq_12400 : nyquist 12400 = 6200 := by norm_num [nyquist]

lemma idxFireF16 : fireFundIdx 16 12400
    = [0, 1, 2, 3, 4, 5, 6, 7, 8, 9, 10, 11, 12, 13, 14, 15] := by
  rw [show fireFundIdx 16 12400
        = binIdx 16 (fireTargetBin 16 12400 - 8) (fireTargetBin 16 12400 + 8) from rfl,
      show fireTargetBin 16 12400 = 8 from by norm_num [fireTargetBin, jsRound, nyquist]]
  decide

lemma idxFireH16 : fireHarmIdx 16 12400 = [10, 11, 12, 13, 14, 15] := by
  rw [show fireHarmIdx 16 12400
        = binIdx 16 (fireHarmonicBin 16 12400 - 6) (fireHarmonicBin 16 12400 + 6) from rfl,
      show fireHarmonicBin 16 12400 = 16 from by norm_num [fireHarmonicBin, jsRound, nyquist]]
  decide

lemma idxFireF64 : fireFundIdx 64 12400
    = [24, 25, 26, 27, 28, 29, 30, 31, 32, 33, 34, 35, 36, 37, 38, 39, 40] := by
  rw [show fireFundIdx 64 12400
        = binIdx 64 (fireTargetBin 64 12400 - 8) (fireTargetBin 64 12400 + 8) from rfl,
      show fireTargetBin 64 12400 = 32 from by norm_num [fireTargetBin, jsRound, nyquist]]
  decide

lemma idxFireH64 : fireHarmIdx 64 12400 = [58, 59, 60, 61, 62, 63] := by
  rw [show fireHarmIdx 64 12400
        = binIdx 64 (fireHarmonicBin 64 12400 - 6) (fireHarmonicBin 64 12400 + 6) from rfl,
      show fireHarmonicBin 64 12400 = 64 from by norm_num [fireHarmonicBin, jsRound, nyquist]]
  decide

lemma detect_fire_satSpec :
    detectFireAlarm true satSpec 12400 = some ⟨.fire, 49/50, 3100, 255⟩ := by
  have hfp : firePeak satSpec 12400 = 255 := by
    show segPeak satSpec (fireFundIdx satSpec.length 12400) = 255
    rw [show satSpec.length = 16 from rfl, idxFireF16]
    decide
  have hfa : fireAvg satSpec 12400 = 255 := by
    show segAvg satSpec (fireFundIdx satSpec.length 12400) = 255
    rw [show satSpec.length = 16 from rfl, idxFireF16]
    norm_num [segAvg, List.foldl, satSpec]
  have hhp : fireHarmPeak satSpec 12400 = 255 := by
    show segPeak satSpec (fireHarmIdx satSpec.length 12400) = 255
    rw [show satSpec.length = 16 from rfl, idxFireH16]
    decide
  have hcf : min (fireConfidence satSpec 12400) (49/50) = 49/50 := by
    unfold fireConfidence
    rw [hfp, hhp, hfa]
    norm_num [min_def]
  unfold detectFireAlarm
  rw [hfp, hfa, hhp, hcf]
  norm_num

lemma fire_loudHarmonic_peaks :
    firePeak loudHarmonic 12400 = 150 ∧ fireAvg loudHarmonic 12400 = 150
      ∧ fireHarmPeak loudHarmonic 12400 = 200 := by
  refine ⟨?_, ?_, ?_⟩
  · show segPeak loudHarmonic (fireFundIdx loudHarmonic.length 12400) = 150
    rw [show loudHarmonic.length = 64 from rfl, idxFireF64]
    decide
  · show segAvg loudHarmonic (fireFundIdx loudHarmonic.length 12400) = 150
    rw [show loudHarmonic.length = 64 from rfl, idxFireF64]
    norm_num [segAvg, List.foldl, loudHarmonic]
  · show segPeak loudHarmonic (fireHarmIdx loudHarmonic.length 12400) = 200
    rw [show loudHarmonic.length = 64 from rfl, idxFireH64]
    decide

lemma detect_fire_loudHarmonic :
    detectFireAlarm true loudHarmonic 12400 = some ⟨.fire, 7/8, 3100, 150⟩ := by
  obtain ⟨hfp, hfa, hhp⟩ := fire_loudHarmonic_peaks
  have hcf : min (fireConfidence loudHarmonic 12400) (49/50) = 7/8 := by
    unfold fireConfidence
    rw [hfp, hhp, hfa]
    norm_num [min_def]
  unfold detectFireAlarm
  rw [hfp, hfa, hhp, hcf]
  norm_num

lemma idxDb1 : rangeIdx 16 12400 350 550 = [0, 1, 2] := by
  rw [show rangeIdx 16 12400 350 550
        = binIdx 16 ⌊350 * ((16 : ℕ) : ℚ) / nyquist 12400⌋
            ⌈550 * ((16 : ℕ) : ℚ) / nyquist 12400⌉ from rfl,
      show ⌊350 * ((16 : ℕ) : ℚ) / nyquist 12400⌋ = 0 from by norm_num [nyquist],
      show ⌈550 * ((16 : ℕ) : ℚ) / nyquist 12400⌉ = 2 from by
        rw [Int.ceil_eq_iff]
        norm_num [nyquist]]
  decide

lemma idxDb2 : rangeIdx 16 12400 700 1000 = [1, 2, 3] := by
  rw [show rangeIdx 16 12400 700 1000
        = binIdx 16 ⌊700 * ((16 : ℕ) : ℚ) / nyquist 12400⌋
            ⌈1000 * ((16 : ℕ) : ℚ) / nyquist 12400⌉ from rfl,
      show ⌊700 * ((16 : ℕ) : ℚ) / nyquist 12400⌋ = 1 from by norm_num [nyquist],
      show ⌈1000 * ((16 : ℕ) : ℚ) / nyquist 12400⌉ = 3 from by
        rw [Int.ceil_eq_iff]
        norm_num [nyquist]]
  decide

lemma idxDb3 : rangeIdx 16 12400 1200 1600 = [3, 4, 5] := by
  rw [show rangeIdx 16 12400 1200 1600
        = binIdx 16 ⌊1200 * ((16 : ℕ) : ℚ) / nyquist 12400⌋
            ⌈1600 * ((16 : ℕ) : ℚ) / nyquist 12400⌉ from rfl,
      show ⌊1200 * ((16 : ℕ) : ℚ) / nyquist 12400⌋ = 3 from by norm_num [nyquist],
      show ⌈1600 * ((16 : ℕ) : ℚ) / nyquist 12400⌉ = 5 from by
        rw [Int.ceil_eq_iff]
        norm_num [nyquist]]
  decide

lemma idxBabyF : rangeIdx 16 12400 250 600 = [0, 1, 2] := by
  rw [show rangeIdx 16 12400 250 600
        = binIdx 16 ⌊250 * ((16 : ℕ) : ℚ) / nyquist 12400⌋
            ⌈600 * ((16 : ℕ) : ℚ) / nyquist 12400⌉ from rfl,
      show ⌊250 * ((16 : ℕ) : ℚ) / nyquist 12400⌋ = 0 from by norm_num [nyquist],
      show ⌈600 * ((16 : ℕ) : ℚ) / nyquist 12400⌉ = 2 from by
        rw [Int.ceil_eq_iff]
        norm_num [nyquist]]
  decide

lemma idxBabyH1 : rangeIdx 16 12400 800 1400 = [2, 3, 4] := by
  rw [show rangeIdx 16 12400 800 1400
        = binIdx 16 ⌊800 * ((16 : ℕ) : ℚ) / nyquist 12400⌋
            ⌈1400 * ((16 : ℕ) : ℚ) / nyquist 12400⌉ from rfl,
      show ⌊800 * ((16 : ℕ) : ℚ) / nyquist 12400⌋ = 2 from by norm_num [nyquist],
      show ⌈1400 * ((16 : ℕ) : ℚ) / nyquist 12400⌉ = 4 from by
        rw [Int.ceil_eq_iff]
        norm_num [nyquist]]
  decide

lemma idxBabyH2 : rangeIdx 16 12400 1600 2800 = [4, 5, 6, 7, 8] := by
  rw [show rangeIdx 16 12400 1600 2800
        = binIdx 16 ⌊1600 * ((16 : ℕ) : ℚ) / nyquist 12400⌋
            ⌈2800 * ((16 : ℕ) : ℚ) / nyquist 12400⌉ from rfl,
      show ⌊1600 * ((16 : ℕ) : ℚ) / nyquist 12400⌋ = 4 from by norm_num [nyquist],
      show ⌈2800 * ((16 : ℕ) : ℚ) / nyquist 12400⌉ = 8 from by
        rw [Int.ceil_eq_iff]
        norm_num [nyquist]]
  decide

lemma idxBabyH3 : rangeIdx 16 12400 3000 4500 = [7, 8, 9, 10, 11, 12] := by
  rw [show rangeIdx 16 12400 3000 4500
        = binIdx 16 ⌊3000 * ((16 : ℕ) : ℚ) / nyquist 12400⌋
            ⌈4500 * ((16 : ℕ) : ℚ) / nyquist 12400⌉ from rfl,
      show ⌊3000 * ((16 : ℕ) : ℚ) / nyquist 12400⌋ = 7 from by norm_num [nyquist],
      show ⌈4500 * ((16 : ℕ) : ℚ) / nyquist 12400⌉ = 12 from by
        rw [Int.ceil_eq_iff]
        norm_num [nyquist]]
  decide

lemma dbState_satSpec : dbState satSpec 12400 = ⟨510, 3, 0, 255⟩ := by
  have p1 : rangePeak satSpec 12400 dbR1 = 255 := by
    show segPeak satSpec (rangeIdx satSpec.length 12400 350 550) = 255
    rw [show satSpec.length = 16 from rfl, idxDb1]
    decide
  have p2 : rangePeak satSpec 12400 dbR2 = 255 := by
    show segPeak satSpec (rangeIdx satSpec.length 12400 700 1000) = 255
    rw [show satSpec.length = 16 from rfl, idxDb2]
    decide
  have p3 : rangePeak satSpec 12400 dbR3 = 255 := by
    show segPeak satSpec (rangeIdx satSpec.length 12400 1200 1600) = 255
    rw [show satSpec.length = 16 from rfl, idxDb3]
    decide
  have av1 : rangeAvg satSpec 12400 dbR1 = 255 := by
    show segAvg satSpec (rangeIdx satSpec.length 12400 350 550) = 255
    rw [show satSpec.length = 16 from rfl, idxDb1]
    norm_num [segAvg, List.foldl, satSpec]
  have av2 : rangeAvg satSpec 12400 dbR2 = 255 := by
    show segAvg satSpec (rangeIdx satSpec.length 12400 700 1000) = 255
    rw [show satSpec.length = 16 from rfl, idxDb2]
    norm_num [segAvg, List.foldl, satSpec]
  have av3 : rangeAvg satSpec 12400 dbR3 = 255 := by
    show segAvg satSpec (rangeIdx satSpec.length 12400 1200 1600) = 255
    rw [show satSpec.length = 16 from rfl, idxDb3]
    norm_num [segAvg, List.foldl, satSpec]
  have fr1 : rangePeakFreq satSpec 12400 dbR1 = 0 := by
    show (segPeakFreq satSpec (rangeIdx satSpec.length 12400 350 550)
        (nyquist 12400) satSpec.length).2 = 0
    rw [show satSpec.length = 16 from rfl, idxDb1, nyq_12400]
    norm_num [segPeakFreq, List.foldl, satSpec]
  have a1 : rangeActive satSpec 12400 dbR1 := by
    refine ⟨?_, ?_, ?_⟩
    · show 0 < (rangeIdx satSpec.length 12400 350 550).length
      rw [show satSpec.length = 16 from rfl, idxDb1]
      decide
    · rw [p1]; norm_num
    · rw [av1]; norm_num
  have a2 : rangeActive satSpec 12400 dbR2 := by
    refine ⟨?_, ?_, ?_⟩
    · show 0 < (rangeIdx satSpec.length 12400 700 1000).length
      rw [show satSpec.length = 16 from rfl, idxDb2]
      decide
    · rw [p2]; norm_num
    · rw [av2]; norm_num
  have a3 : rangeActive satSpec 12400 dbR3 := by
    refine ⟨?_, ?_, ?_⟩
    · show 0 < (rangeIdx satSpec.length 12400 1200 1600).length
      rw [show satSpec.length = 16 from rfl, idxDb3]
      decide
    · rw [p3]; norm_num
    · rw [av3]; norm_num
  have s1 : dbStep satSpec 12400 ⟨0, 0, 0, 0⟩ dbR1 = ⟨153, 1, 0, 255⟩ := by
    unfold dbStep
    rw [if_pos a1, p1, av1, fr1]
    norm_num [dbR1]
  have s2 : dbStep satSpec 12400 ⟨153, 1, 0, 255⟩ dbR2 = ⟨357, 2, 0, 255⟩ := by
    unfold dbStep
    rw [if_pos a2, p2, av2]
    norm_num [dbR2]
  have s3 : dbStep satSpec 12400 ⟨357, 2, 0, 255⟩ dbR3 = ⟨510, 3, 0, 255⟩ := by
    unfold dbStep
    rw [if_pos a3, p3, av3]
    norm_num [dbR3]
  show (dbRanges.foldl (dbStep satSpec 12400) ⟨0, 0, 0, 0⟩) = _
  rw [dbRanges]
  simp only [List.foldl_cons, List.foldl_nil]
  rw [s1, s2, s3]

lemma detect_doorbell_satSpec :
    detectDoorbell true satSpec 12400 = some ⟨.doorbell, 19/20, 0, 255⟩ := by
  unfold detectDoorbell
  rw [dbState_satSpec]
  norm_num [min_def]

lemma dbState_midDoorbell : dbState midDoorbell 12400 = ⟨200, 3, 0, 100⟩ := by
  have p1 : rangePeak midDoorbell 12400 dbR1 = 100 := by
    show segPeak midDoorbell (rangeIdx midDoorbell.length 12400 350 550) = 100
    rw [show midDoorbell.length = 16 from rfl, idxDb1]
    decide
  have p2 : rangePeak midDoorbell 12400 dbR2 = 100 := by
    show segPeak midDoorbell (rangeIdx midDoorbell.length 12400 700 1000) = 100
    rw [show midDoorbell.length = 16 from rfl, idxDb2]
    decide
  have p3 : rangePeak midDoorbell 12400 dbR3 = 100 := by
    show segPeak midDoorbell (rangeIdx midDoorbell.length 12400 1200 1600) = 100
    rw [show midDoorbell.length = 16 from rfl, idxDb3]
    decide
  have av1 : rangeAvg midDoorbell 12400 dbR1 = 100 := by
    show segAvg midDoorbell (rangeIdx midDoorbell.length 12400 350 550) = 100
    rw [show midDoorbell.length = 16 from rfl, idxDb1]
    norm_num [segAvg, List.foldl, midDoorbell]
  have av2 : rangeAvg midDoorbell 12400 dbR2 = 100 := by
    show segAvg midDoorbell (rangeIdx midDoorbell.length 12400 700 1000) = 100
    rw [show midDoorbell.length = 16 from rfl, idxDb2]
    norm_num [segAvg, List.foldl, midDoorbell]
  have av3 : rangeAvg midDoorbell 12400 dbR3 = 100 := by
    show segAvg midDoorbell (rangeIdx midDoorbell.length 12400 1200 1600) = 100
    rw [show midDoorbell.length = 16 from rfl, idxDb3]
    norm_num [segAvg, List.foldl, midDoorbell]
  have fr1 : rangePeakFreq midDoorbell 12400 dbR1 = 0 := by
    show (segPeakFreq midDoorbell (rangeIdx midDoorbell.length 12400 350 550)
        (nyquist 12400) midDoorbell.length).2 = 0
    rw [show midDoorbell.length = 16 from rfl, idxDb1, nyq_12400]
    norm_num [segPeakFreq, List.foldl, midDoorbell]
  have a1 : rangeActive midDoorbell 12400 dbR1 := by
    refine ⟨?_, ?_, ?_⟩
    · show 0 < (rangeIdx midDoorbell.length 12400 350 550).length
      rw [show midDoorbell.length = 16 from rfl, idxDb1]
      decide
    · rw [p1]; norm_num
    · rw [av1]; norm_num
  have a2 : rangeActive midDoorbell 12400 dbR2 := by
    refine ⟨?_, ?_, ?_⟩
    · show 0 < (rangeIdx midDoorbell.length 12400 700 1000).length
      rw [show midDoorbell.length = 16 from rfl, idxDb2]
      decide
    · rw [p2]; norm_num
    · rw [av2]; norm_num
  have a3 : rangeActive midDoorbell 12400 dbR3 := by
    refine ⟨?_, ?_, ?_⟩
    · show 0 < (rangeIdx midDoorbell.length 12400 1200 1600).length
      rw [show midDoorbell.length = 16 from rfl, idxDb3]
      decide
    · rw [p3]; norm_num
    · rw [av3]; norm_num
  have s1 : dbStep midDoorbell 12400 ⟨0, 0, 0, 0⟩ dbR1 = ⟨60, 1, 0, 100⟩ := by
    unfold dbStep
    rw [if_pos a1, p1, av1, fr1]
    norm_num [dbR1]
  have s2 : dbStep midDoorbell 12400 ⟨60, 1, 0, 100⟩ dbR2 = ⟨140, 2, 0, 100⟩ := by
    unfold dbStep
    rw [if_pos a2, p2, av2]
    norm_num [dbR2]
  have s3 : dbStep midDoorbell 12400 ⟨140, 2, 0, 100⟩ dbR3 = ⟨200, 3, 0, 100⟩ := by
    unfold dbStep
    rw [if_pos a3, p3, av3]
    norm_num [dbR3]
  show (dbRanges.foldl (dbStep midDoorbell 12400) ⟨0, 0, 0, 0⟩) = _
  rw [dbRanges]
  simp only [List.foldl_cons, List.foldl_nil]
  rw [s1, s2, s3]

lemma detect_doorbell_midDoorbell :
    detectDoorbell true midDoorbell 12400 = some ⟨.doorbell, 4/7, 0, 100⟩ := by
  unfold detectDoorbell
  rw [dbState_midDoorbell]
  norm_num [min_def]

lemma analyzeRange_satSpec_fund : analyzeRange satSpec 12400 250 600 = (255, 255, 0) := by
  show ((segPeakFreq satSpec (rangeIdx satSpec.length 12400 250 600)
          (nyquist 12400) satSpec.length).1,
        segAvg satSpec (rangeIdx satSpec.length 12400 250 600),
        (segPeakFreq satSpec (rangeIdx satSpec.length 12400 250 600)
          (nyquist 12400) satSpec.length).2) = (255, 255, 0)
  rw [show satSpec.length = 16 from rfl, idxBabyF, nyq_12400]
  norm_num [segPeakFreq, segAvg, List.foldl, satSpec]

lemma analyzeRange_satSpec_h1 : analyzeRange satSpec 12400 800 1400 = (255, 255, 775) := by
  show ((segPeakFreq satSpec (rangeIdx satSpec.length 12400 800 1400)
          (nyquist 12400) satSpec.length).1,
        segAvg satSpec (rangeIdx satSpec.length 12400 800 1400),
        (segPeakFreq satSpec (rangeIdx satSpec.length 12400 800 1400)
          (nyquist 12400) satSpec.length).2) = (255, 255, 775)
  rw [show satSpec.length = 16 from rfl, idxBabyH1, nyq_12400]
  norm_num [segPeakFreq, segAvg, List.foldl, satSpec]

lemma analyzeRange_satSpec_h2 : analyzeRange satSpec 12400 1600 2800 = (255, 255, 1550) := by
  show ((segPeakFreq satSpec (rangeIdx satSpec.length 12400 1600 2800)
          (nyquist 12400) satSpec.length).1,
        segAvg satSpec (rangeIdx satSpec.length 12400 1600 2800),
        (segPeakFreq satSpec (rangeIdx satSpec.length 12400 1600 2800)
          (nyquist 12400) satSpec.length).2) = (255, 255, 1550)
  rw [show satSpec.length = 16 from rfl, idxBabyH2, nyq_12400]
  norm_num [segPeakFreq, segAvg, List.foldl, satSpec]

lemma analyzeRange_satSpec_h3 : analyzeRange satSpec 12400 3000 4500 = (255, 255, 5425/2) := by
  show ((segPeakFreq satSpec (rangeIdx satSpec.length 12400 3000 4500)
          (nyquist 12400) satSpec.length).1,
        segAvg satSpec (rangeIdx satSpec.length 12400 3000 4500),
        (segPeakFreq satSpec (rangeIdx satSpec.length 12400 3000 4500)
          (nyquist 12400) satSpec.length).2) = (255, 255, 5425/2)
  rw [show satSpec.length = 16 from rfl, idxBabyH3, nyq_12400]
  norm_num [segPeakFreq, segAvg, List.foldl, satSpec]

lemma detect_baby_satSpec :
    detectBabyCrying true satSpec 12400 = some ⟨.baby, 23/25, 0, 255⟩ := by
  have hbc : min (babyConfidence satSpec 12400) (23/25) = 23/25 := by
    unfold babyConfidence
    rw [analyzeRange_satSpec_fund, analyzeRange_satSpec_h1,
        analyzeRange_satSpec_h2, analyzeRange_satSpec_h3]
    norm_num [min_def]
  unfold detectBabyCrying
  rw [analyzeRange_satSpec_fund, analyzeRange_satSpec_h1,
      analyzeRange_satSpec_h2, analyzeRange_satSpec_h3, hbc]
  norm_num

/-- C2 witness: on a saturated 16-bin spectrum at sampleRate 12400 the fire
classifier produces a candidate, and its confidence follows the documented
formula. -/
theorem C2_fire_classifier_witness :
    (⟨.fire, 49/50, 3100, 255⟩ : Candidate).confidence
      = min ((1/2) * min ((firePeak satSpec 12400 : ℚ) / 200) 1
          + (3/10) * min ((fireHarmPeak satSpec 12400 : ℚ) / 120) 1
          + (1/5) * min (fireAvg satSpec 12400 / 80) 1) (49/50) :=
  (C2_fire_classifier satSpec 12400).2 _ detect_fire_satSpec

/-- C3 witness: candidates produced from the saturated spectrum respect the
per-kind confidence ceilings. -/
theorem C3_confidence_ceiling_witness :
    ((⟨.fire, 49/50, 3100, 255⟩ : Candidate).confidence ≤ 49/50)
    ∧ ((⟨.doorbell, 19/20, 0, 255⟩ : Candidate).confidence ≤ 19/20)
    ∧ ((⟨.baby, 23/25, 0, 255⟩ : Candidate).confidence ≤ 23/25) :=
  ⟨(C3_confidence_ceiling satSpec 12400 true _).1 detect_fire_satSpec,
   (C3_confidence_ceiling satSpec 12400 true _).2.1 detect_doorbell_satSpec,
   (C3_confidence_ceiling satSpec 12400 true _).2.2.1 detect_baby_satSpec⟩

/-- C8: stopping then restarting a session leaves an empty gate state (no
last-emission entry for any kind) and a zeroed smoothed level, so a candidate
clearing the confidence gate is emitted as soon as `now` exceeds the cooldown
measured from 0 — the prior session's cooldown does not apply. -/
theorem C8_session_restart (s : SessionState) (c : Candidate) (now : ℕ) :
    (startListening (stopListening s)).gate = emptyGate
    ∧ (startListening (stopListening s)).level = 0
    ∧ (∀ k, (startListening (stopListening s)).gate k = none)
    ∧ (confidenceThreshold c.type < c.confidence
        → cooldownPeriod c.type < (now : ℤ)
        → (gateStep now (startListening (stopListening s)).gate c).1
            = some ⟨c.type, c.confidence, now, c.frequency, c.amplitude⟩) := by
  refine ⟨rfl, rfl, fun k => rfl, fun h1 h2 => ?_⟩
  have he := gateStep_emit now emptyGate c (by simpa [emptyGate] using h2) h1
  show (gateStep now emptyGate c).1 = _
  rw [he]

/-- C8 witness: a session whose gate recorded an emission at 4999 ms is stopped
and restarted; a Fire candidate at 5000 ms (1 ms later, far inside the prior
3000 ms cooldown) is emitted again because the state was cleared. -/
theorem C8_session_restart_witness :
    (gateStep 5000 (startListening (stopListening ⟨fun _ => some 4999, 1/2⟩)).gate
        ⟨.fire, 4/5, 3100, 200⟩).1
      = some ⟨.fire, 4/5, 5000, 3100, 200⟩ :=
  (C8_session_restart ⟨fun _ => some 4999, 1/2⟩ ⟨.fire, 4/5, 3100, 200⟩ 5000).2.2.2
    (by norm_num [confidenceThreshold]) (by norm_num [cooldownPeriod])

/-- C10: a Doorbell candidate whose weighted score is at most 245 has
confidence `min(ws/350, 0.95) ≤ 0.70` and is always dropped by the strict
confidence gate with no state change; conversely every emitted Doorbell event
comes from a weighted score strictly above 245. -/
theorem C10_doorbell_gate_floor (f : List ℕ) (sr : ℚ) (c : Candidate)
    (st : GateState) (now : ℕ)
    (hdet : detectDoorbell true f sr = some c) :
    ((dbState f sr).ws ≤ 245
      → c.confidence ≤ 7/10 ∧ gateStep now st c = (none, st)) ∧
    ((gateStep now st c).1.isSome → 245 < (dbState f sr).ws) := by
  have hc : c.type = .doorbell
      ∧ c.confidence = min ((dbState f sr).ws / 350) (19/20) := by
    unfold detectDoorbell at hdet
    split_ifs at hdet
    injection hdet with h
    subst h
    exact ⟨rfl, rfl⟩
  obtain ⟨hty, hconf⟩ := hc
  have hthr : confidenceThreshold c.type = 7/10 := by
    rw [hty]
    simp [confidenceThreshold]
  have hkey : ∀ hws : (dbState f sr).ws ≤ 245, c.confidence ≤ 7/10 := by
    intro hws
    rw [hconf]
    have hm := min_le_left ((dbState f sr).ws / 350) (19/20)
    linarith
  constructor
  · intro hws
    refine ⟨hkey hws, ?_⟩
    refine gateStep_drop now st c fun hcon => ?_
    have h2 := hcon.2
    rw [hthr] at h2
    have := hkey hws
    linarith
  · intro hs
    by_contra hn
    push_neg at hn
    have hdrop : gateStep now st c = (none, st) := by
      refine gateStep_drop now st c fun hcon => ?_
      have h2 := hcon.2
      rw [hthr] at h2
      have := hkey hn
      linarith
    rw [hdrop] at hs
    simp at hs

/-- C10 witness: the moderate doorbell spectrum yields a candidate with
weighted score 200 (in (180, 245]) and confidence 4/7 ≤ 0.70, which the gate
drops with no state change. -/
theorem C10_doorbell_gate_floor_witness :
    (⟨.doorbell, 4/7, 0, 100⟩ : Candidate).confidence ≤ 7/10
      ∧ gateStep 10000 emptyGate ⟨.doorbell, 4/7, 0, 100⟩ = (none, emptyGate) :=
  (C10_doorbell_gate_floor midDoorbell 12400 _ emptyGate 10000
      detect_doorbell_midDoorbell).1
    (by rw [dbState_midDoorbell]; norm_num)

lemma rangeActive_iff (f : List ℕ) (sr : ℚ) (r : ℚ × ℚ × ℚ) :
    rangeActive f sr r ↔ (65 < rangePeak f sr r ∧ 25 < rangeAvg f sr r) := by
  constructor
  · exact fun h => ⟨h.2.1, h.2.2⟩
  · intro h
    refine ⟨?_, h.1, h.2⟩
    by_contra h0
    push_neg at h0
    have hnil : rangeIdx f.length sr r.1 r.2.1 = [] :=
      List.length_eq_zero.mp (Nat.le_zero.mp h0)
    have hp := h.1
    unfold rangePeak at hp
    rw [hnil] at hp
    simp [segPeak] at hp

lemma dbStep_pos (f : List ℕ) (sr : ℚ) (st : DbAcc) (r : ℚ × ℚ × ℚ)
    (h : rangeActive f sr r) :
    dbStep f sr st r
      = { ws := st.ws + ((rangePeak f sr r : ℚ) + rangeAvg f sr r) * r.2.2
          active := st.active + 1
          domFreq := if st.maxAmp < rangePeak f sr r
                     then rangePeakFreq f sr r else st.domFreq
          maxAmp := if st.maxAmp < rangePeak f sr r
                    then rangePeak f sr r else st.maxAmp } := by
  unfold dbStep
  rw [if_pos h]

lemma dbStep_neg (f : List ℕ) (sr : ℚ) (st : DbAcc) (r : ℚ × ℚ × ℚ)
    (h : ¬ rangeActive f sr r) :
    dbStep f sr st r = st := by
  unfold dbStep
  rw [if_neg h]

lemma dbState_ws_active (f : List ℕ) (sr : ℚ) :
    ((dbState f sr).ws
      = (if rangeActive f sr dbR1
          then ((rangePeak f sr dbR1 : ℚ) + rangeAvg f sr dbR1) * dbR1.2.2 else 0)
        + (if rangeActive f sr dbR2
          then ((rangePeak f sr dbR2 : ℚ) + rangeAvg f sr dbR2) * dbR2.2.2 else 0)
        + (if rangeActive f sr dbR3
          then ((rangePeak f sr dbR3 : ℚ) + rangeAvg f sr dbR3) * dbR3.2.2 else 0))
    ∧ ((dbState f sr).active
      = (if rangeActive f sr dbR1 then 1 else 0)
        + (if rangeActive f sr dbR2 then 1 else 0)
        + (if rangeActive f sr dbR3 then 1 else 0)) := by
  unfold dbState dbRanges
  simp only [List.foldl_cons, List.foldl_nil]
  by_cases h1 : rangeActive f sr dbR1 <;> by_cases h2 : rangeActive f sr dbR2 <;>
    by_cases h3 : rangeActive f sr dbR3
  · rw [dbStep_pos f sr _ dbR1 h1, dbStep_pos f sr _ dbR2 h2, dbStep_pos f sr _ dbR3 h3]
    simp only [if_pos h1, if_pos h2, if_pos h3]
    constructor <;> simp
  · rw [dbStep_pos f sr _ dbR1 h1, dbStep_pos f sr _ dbR2 h2, dbStep_neg f sr _ dbR3 h3]
    simp only [if_pos h1, if_pos h2, if_neg h3]
    constructor <;> simp
  · rw [dbStep_pos f sr _ dbR1 h1, dbStep_neg f sr _ dbR2 h2, dbStep_pos f sr _ dbR3 h3]
    simp only [if_pos h1, if_neg h2, if_pos h3]
    constructor <;> simp
  · rw [dbStep_pos f sr _ dbR1 h1, dbStep_neg f sr _ dbR2 h2, dbStep_neg f sr _ dbR3 h3]
    simp only [if_pos h1, if_neg h2, if_neg h3]
    constructor <;> simp
  · rw [dbStep_neg f sr _ dbR1 h1, dbStep_pos f sr _ dbR2 h2, dbStep_pos f sr _ dbR3 h3]
    simp only [if_neg h1, if_pos h2, if_pos h3]
    constructor <;> simp
  · rw [dbStep_neg f sr _ dbR1 h1, dbStep_pos f sr _ dbR2 h2, dbStep_neg f sr _ dbR3 h3]
    simp only [if_neg h1, if_pos h2, if_neg h3]
    constructor <;> simp
  · rw [dbStep_neg f sr _ dbR1 h1, dbStep_neg f sr _ dbR2 h2, dbStep_pos f sr _ dbR3 h3]
    simp only [if_neg h1, if_neg h2, if_pos h3]
    constructor <;> simp
  · rw [dbStep_neg f sr _ dbR1 h1, dbStep_neg f sr _ dbR2 h2, dbStep_neg f sr _ dbR3 h3]
    simp only [if_neg h1, if_neg h2, if_neg h3]
    constructor <;> simp

/-- C6: the Doorbell classifier marks each of its three weighted ranges
(350-550 at 0.3, 700-1000 at 0.4, 1200-1600 at 0.3) active exactly when the
range's peak > 65 and average > 25, produces a candidate exactly when at least
two ranges are active and the weighted score (sum over active ranges of
(peak + avg) * weight) exceeds 180, and reports confidence
`min(weightedScore / 350, 0.95)`. -/
theorem C6_doorbell_classifier (f : List ℕ) (sr : ℚ) :
    (dbR1 = (350, 550, 3/10) ∧ dbR2 = (700, 1000, 2/5) ∧ dbR3 = (1200, 1600, 3/10)
      ∧ dbRanges = [dbR1, dbR2, dbR3]) ∧
    (∀ r, rangeActive f sr r ↔ (65 < rangePeak f sr r ∧ 25 < rangeAvg f sr r)) ∧
    ((dbState f sr).ws
      = (if rangeActive f sr dbR1
          then ((rangePeak f sr dbR1 : ℚ) + rangeAvg f sr dbR1) * dbR1.2.2 else 0)
        + (if rangeActive f sr dbR2
          then ((rangePeak f sr dbR2 : ℚ) + rangeAvg f sr dbR2) * dbR2.2.2 else 0)
        + (if rangeActive f sr dbR3
          then ((rangePeak f sr dbR3 : ℚ) + rangeAvg f sr dbR3) * dbR3.2.2 else 0)) ∧
    ((dbState f sr).active
      = (if rangeActive f sr dbR1 then 1 else 0)
        + (if rangeActive f sr dbR2 then 1 else 0)
        + (if rangeActive f sr dbR3 then 1 else 0)) ∧
    ((detectDoorbell true f sr).isSome
      ↔ (2 ≤ (dbState f sr).active ∧ 180 < (dbState f sr).ws)) ∧
    (∀ c, detectDoorbell true f sr = some c
      → c.confidence = min ((dbState f sr).ws / 350) (19/20)) := by
  refine ⟨⟨rfl, rfl, rfl, rfl⟩, rangeActive_iff f sr,
    (dbState_ws_active f sr).1, (dbState_ws_active f sr).2, ?_, ?_⟩
  · unfold detectDoorbell
    split_ifs with h1 h2
    · simp at h1
    · simpa using h2
    · simpa using h2
  · intro c hc
    unfold detectDoorbell at hc
    split_ifs at hc
    injection hc with hc
    subst hc
    rfl

/-- C6 witness: the moderate doorbell spectrum produces a candidate whose
confidence equals `min(weightedScore / 350, 0.95)`. -/
theorem C6_doorbell_classifier_witness :
    (⟨.doorbell, 4/7, 0, 100⟩ : Candidate).confidence
      = min ((dbState midDoorbell 12400).ws / 350) (19/20) :=
  (C6_doorbell_classifier midDoorbell 12400).2.2.2.2.2 _ detect_doorbell_midDoorbell

lemma dbState_report (f : List ℕ) (sr : ℚ) :
    ((rangeActive f sr dbR1 → rangePeak f sr dbR1 ≤ (dbState f sr).maxAmp)
      ∧ (rangeActive f sr dbR2 → rangePeak f sr dbR2 ≤ (dbState f sr).maxAmp)
      ∧ (rangeActive f sr dbR3 → rangePeak f sr dbR3 ≤ (dbState f sr).maxAmp))
    ∧ ((dbState f sr).active = 0
       ∨ (rangeActive f sr dbR1 ∧ (dbState f sr).maxAmp = rangePeak f sr dbR1
           ∧ (dbState f sr).domFreq = rangePeakFreq f sr dbR1)
       ∨ (rangeActive f sr dbR2 ∧ (dbState f sr).maxAmp = rangePeak f sr dbR2
           ∧ (dbState f sr).domFreq = rangePeakFreq f sr dbR2)
       ∨ (rangeActive f sr dbR3 ∧ (dbState f sr).maxAmp = rangePeak f sr dbR3
           ∧ (dbState f sr).domFreq = rangePeakFreq f sr dbR3)) := by
  unfold dbState dbRanges
  simp only [List.foldl_cons, List.foldl_nil]
  by_cases h1 : rangeActive f sr dbR1 <;> by_cases h2 : rangeActive f sr dbR2 <;>
    by_cases h3 : rangeActive f sr dbR3
  · rw [dbStep_pos f sr _ dbR1 h1, dbStep_pos f sr _ dbR2 h2, dbStep_pos f sr _ dbR3 h3]
    have hp1 : 0 < rangePeak f sr dbR1 := by have := h1.2.1; omega
    dsimp only
    simp only [if_pos hp1]
    by_cases h12 : rangePeak f sr dbR1 < rangePeak f sr dbR2
    · simp only [if_pos h12]
      by_cases h23 : rangePeak f sr dbR2 < rangePeak f sr dbR3
      · simp only [if_pos h23]
        refine ⟨⟨fun hx => ?_, fun hx => ?_, fun hx => ?_⟩, ?_⟩ <;>
          first
            | trivial
            | omega
            | exact Or.inr (Or.inr (Or.inr ⟨h3, by trivial, by trivial⟩))
      · simp only [if_neg h23]
        refine ⟨⟨fun hx => ?_, fun hx => ?_, fun hx => ?_⟩, ?_⟩ <;>
          first
            | trivial
            | omega
            | exact Or.inr (Or.inr (Or.inl ⟨h2, by trivial, by trivial⟩))
    · simp only [if_neg h12]
      by_cases h13 : rangePeak f sr dbR1 < rangePeak f sr dbR3
      · simp only [if_pos h13]
        refine ⟨⟨fun hx => ?_, fun hx => ?_, fun hx => ?_⟩, ?_⟩ <;>
          first
            | trivial
            | omega
            | exact Or.inr (Or.inr (Or.inr ⟨h3, by trivial, by trivial⟩))
      · simp only [if_neg h13]
        refine ⟨⟨fun hx => ?_, fun hx => ?_, fun hx => ?_⟩, ?_⟩ <;>
          first
            | trivial
            | omega
            | exact Or.inr (Or.inl ⟨h1, by trivial, by trivial⟩)
  · rw [dbStep_pos f sr _ dbR1 h1, dbStep_pos f sr _ dbR2 h2, dbStep_neg f sr _ dbR3 h3]
    have hp1 : 0 < rangePeak f sr dbR1 := by have := h1.2.1; omega
    dsimp only
    simp only [if_pos hp1]
    by_cases h12 : rangePeak f sr dbR1 < rangePeak f sr dbR2
    · simp only [if_pos h12]
      refine ⟨⟨fun hx => ?_, fun hx => ?_, fun hx => ?_⟩, ?_⟩ <;>
        first
          | trivial
          | omega
          | exact absurd hx h3
          | exact Or.inr (Or.inr (Or.inl ⟨h2, by trivial, by trivial⟩))
    · simp only [if_neg h12]
      refine ⟨⟨fun hx => ?_, fun hx => ?_, fun hx => ?_⟩, ?_⟩ <;>
        first
          | trivial
          | omega
          | exact absurd hx h3
          | exact Or.inr (Or.inl ⟨h1, by trivial, by trivial⟩)
  · rw [dbStep_pos f sr _ dbR1 h1, dbStep_neg f sr _ dbR2 h2, dbStep_pos f sr _ dbR3 h3]
    have hp1 : 0 < rangePeak f sr dbR1 := by have := h1.2.1; omega
    dsimp only
    simp only [if_pos hp1]
    by_cases h13 : rangePeak f sr dbR1 < rangePeak f sr dbR3
    · simp only [if_pos h13]
      refine ⟨⟨fun hx => ?_, fun hx => ?_, fun hx => ?_⟩, ?_⟩ <;>
        first
          | trivial
          | omega
          | exact absurd hx h2
          | exact Or.inr (Or.inr (Or.inr ⟨h3, by trivial, by trivial⟩))
    · simp only [if_neg h13]
      refine ⟨⟨fun hx => ?_, fun hx => ?_, fun hx => ?_⟩, ?_⟩ <;>
        first
          | trivial
          | omega
          | exact absurd hx h2
          | exact Or.inr (Or.inl ⟨h1, by trivial, by trivial⟩)
  · rw [dbStep_pos f sr _ dbR1 h1, dbStep_neg f sr _ dbR2 h2, dbStep_neg f sr _ dbR3 h3]
    have hp1 : 0 < rangePeak f sr dbR1 := by have := h1.2.1; omega
    dsimp only
    simp only [if_pos hp1]
    refine ⟨⟨fun hx => ?_, fun hx => ?_, fun hx => ?_⟩, ?_⟩ <;>
      first
        | trivial
        | omega
        | exact absurd hx h2
        | exact absurd hx h3
        | exact Or.inr (Or.inl ⟨h1, by trivial, by trivial⟩)
  · rw [dbStep_neg f sr _ dbR1 h1, dbStep_pos f sr _ dbR2 h2, dbStep_pos f sr _ dbR3 h3]
    have hp2 : 0 < rangePeak f sr dbR2 := by have := h2.2.1; omega
    dsimp only
    simp only [if_pos hp2]
    by_cases h23 : rangePeak f sr dbR2 < rangePeak f sr dbR3
    · simp only [if_pos h23]
      refine ⟨⟨fun hx => ?_, fun hx => ?_, fun hx => ?_⟩, ?_⟩ <;>
        first
          | trivial
          | omega
          | exact absurd hx h1
          | exact Or.inr (Or.inr (Or.inr ⟨h3, by trivial, by trivial⟩))
    · simp only [if_neg h23]
      refine ⟨⟨fun hx => ?_, fun hx => ?_, fun hx => ?_⟩, ?_⟩ <;>
        first
          | trivial
          | omega
          | exact absurd hx h1
          | exact Or.inr (Or.inr (Or.inl ⟨h2, by trivial, by trivial⟩))
  · rw [dbStep_neg f sr _ dbR1 h1, dbStep_pos f sr _ dbR2 h2, dbStep_neg f sr _ dbR3 h3]
    have hp2 : 0 < rangePeak f sr dbR2 := by have := h2.2.1; omega
    dsimp only
    simp only [if_pos hp2]
    refine ⟨⟨fun hx => ?_, fun hx => ?_, fun hx => ?_⟩, ?_⟩ <;>
      first
        | trivial
        | omega
        | exact absurd hx h1
        | exact absurd hx h3
        | exact Or.inr (Or.inr (Or.inl ⟨h2, by trivial, by trivial⟩))
  · rw [dbStep_neg f sr _ dbR1 h1, dbStep_neg f sr _ dbR2 h2, dbStep_pos f sr _ dbR3 h3]
    have hp3 : 0 < rangePeak f sr dbR3 := by have := h3.2.1; omega
    dsimp only
    simp only [if_pos hp3]
    refine ⟨⟨fun hx => ?_, fun hx => ?_, fun hx => ?_⟩, ?_⟩ <;>
      first
        | trivial
        | omega
        | exact absurd hx h1
        | exact absurd hx h2
        | exact Or.inr (Or.inr (Or.inr ⟨h3, by trivial, by trivial⟩))
  · rw [dbStep_neg f sr _ dbR1 h1, dbStep_neg f sr _ dbR2 h2, dbStep_neg f sr _ dbR3 h3]
    refine ⟨⟨fun hx => ?_, fun hx => ?_, fun hx => ?_⟩, ?_⟩ <;>
      first
        | trivial
        | exact absurd hx h1
        | exact absurd hx h2
        | exact absurd hx h3
        | exact Or.inl (by trivial)

/-- C5 counterexample: on a 64-bin spectrum whose harmonic window peak (200)
exceeds its fundamental window peak (150), the fire candidate still reports
amplitude 150 (the fundamental peak) and the constant frequency 3100 — not the
harmonic band's peak, contradicting the claim at this concrete input. -/
theorem C5_reported_peak_counterexample :
    detectFireAlarm true loudHarmonic 12400 = some ⟨.fire, 7/8, 3100, 150⟩
    ∧ firePeak loudHarmonic 12400 = 150
    ∧ fireHarmPeak loudHarmonic 12400 = 200
    ∧ firePeak loudHarmonic 12400 < fireHarmPeak loudHarmonic 12400
    ∧ (⟨.fire, 7/8, 3100, 150⟩ : Candidate).amplitude
        ≠ fireHarmPeak loudHarmonic 12400 := by
  obtain ⟨hfp, hfa, hhp⟩ := fire_loudHarmonic_peaks
  refine ⟨detect_fire_loudHarmonic, hfp, hhp, ?_, ?_⟩
  · rw [hfp, hhp]
    norm_num
  · rw [hhp]
    norm_num

/-- C5 (amended): Doorbell candidates report the peak frequency and amplitude
of an active sub-range holding the largest active-range peak; Fire candidates
always report the constant 3100 Hz and the fundamental window's peak amplitude
regardless of the harmonic peak; BabyCry candidates always report the
fundamental range's peak frequency and amplitude regardless of harmonic
peaks. -/
theorem C5_reported_peak (f : List ℕ) (sr : ℚ) (c : Candidate) :
    (detectFireAlarm true f sr = some c
      → c.frequency = 3100 ∧ c.amplitude = firePeak f sr) ∧
    (detectBabyCrying true f sr = some c
      → c.frequency = (analyzeRange f sr 250 600).2.2
        ∧ c.amplitude = (analyzeRange f sr 250 600).1) ∧
    (detectDoorbell true f sr = some c
      → ((rangeActive f sr dbR1 → rangePeak f sr dbR1 ≤ c.amplitude)
         ∧ (rangeActive f sr dbR2 → rangePeak f sr dbR2 ≤ c.amplitude)
         ∧ (rangeActive f sr dbR3 → rangePeak f sr dbR3 ≤ c.amplitude))
        ∧ ((rangeActive f sr dbR1 ∧ c.amplitude = rangePeak f sr dbR1
              ∧ c.frequency = rangePeakFreq f sr dbR1)
           ∨ (rangeActive f sr dbR2 ∧ c.amplitude = rangePeak f sr dbR2
              ∧ c.frequency = rangePeakFreq f sr dbR2)
           ∨ (rangeActive f sr dbR3 ∧ c.amplitude = rangePeak f sr dbR3
              ∧ c.frequency = rangePeakFreq f sr dbR3))) := by
  refine ⟨?_, ?_, ?_⟩
  · intro h
    unfold detectFireAlarm at h
    split_ifs at h
    injection h with h
    subst h
    exact ⟨rfl, rfl⟩
  · intro h
    unfold detectBabyCrying at h
    split_ifs at h
    injection h with h
    subst h
    exact ⟨rfl, rfl⟩
  · intro h
    have hc : c.amplitude = (dbState f sr).maxAmp
        ∧ c.frequency = (dbState f sr).domFreq ∧ 2 ≤ (dbState f sr).active := by
      unfold detectDoorbell at h
      split_ifs at h with hb hcond
      injection h with h
      subst h
      exact ⟨rfl, rfl, hcond.1⟩
    obtain ⟨hamp, hfreq, hact⟩ := hc
    obtain ⟨hle, hrep⟩ := dbState_report f sr
    refine ⟨⟨fun hx => by rw [hamp]; exact hle.1 hx,
             fun hx => by rw [hamp]; exact hle.2.1 hx,
             fun hx => by rw [hamp]; exact hle.2.2 hx⟩, ?_⟩
    rcases hrep with h0 | hr1 | hr2 | hr3
    · exfalso
      omega
    · exact Or.inl ⟨hr1.1, hamp.trans hr1.2.1, hfreq.trans hr1.2.2⟩
    · exact Or.inr (Or.inl ⟨hr2.1, hamp.trans hr2.2.1, hfreq.trans hr2.2.2⟩)
    · exact Or.inr (Or.inr ⟨hr3.1, hamp.trans hr3.2.1, hfreq.trans hr3.2.2⟩)

/-- C5 witness for the amended claim: the fire candidate from the
harmonic-dominant spectrum reports frequency 3100 and the fundamental window's
peak. -/
theorem C5_reported_peak_witness :
    (⟨.fire, 7/8, 3100, 150⟩ : Candidate).frequency = 3100
      ∧ (⟨.fire, 7/8, 3100, 150⟩ : Candidate).amplitude = firePeak loudHarmonic 12400 :=
  (C5_reported_peak loudHarmonic 12400 _).1 detect_fire_loudHarmonic

lemma runCycle_satSpec :
    (runCycle allOn satSpec 12400 emptyGate 10000).1
      = [⟨.fire, 49/50, 10000, 3100, 255⟩, ⟨.doorbell, 19/20, 10000, 0, 255⟩,
         ⟨.baby, 23/25, 10000, 0, 255⟩] := by
  unfold runCycle
  rw [show detectFireAlarm allOn.fire satSpec 12400 = some ⟨.fire, 49/50, 3100, 255⟩
        from detect_fire_satSpec,
      show detectDoorbell allOn.doorbell satSpec 12400 = some ⟨.doorbell, 19/20, 0, 255⟩
        from detect_doorbell_satSpec,
      show detectBabyCrying allOn.baby satSpec 12400 = some ⟨.baby, 23/25, 0, 255⟩
        from detect_baby_satSpec]
  have hdf : SKind.doorbell ≠ SKind.fire := by decide
  have hbf : SKind.baby ≠ SKind.fire := by decide
  have hbd : SKind.baby ≠ SKind.doorbell := by decide
  norm_num [List.filterMap, List.foldl, gateStep, emptyGate,
    cooldownPeriod, confidenceThreshold, hdf, hbf, hbd]

/-- C9 counterexample: the engine performs no frame validation. A 3-sample
frame (not the expected 8192-bin frame) has RMS 1, and the cycle still updates
the smoothed level from 0 to 1/4; a 16-bin spectrum (also not 8192 bins) is
still classified and emits three DetectionEvents — the cycle is not skipped,
contradicting the claim at these concrete inputs. -/
theorem C9_frame_validation_counterexample :
    ([0, 0, 0] : List ℕ).length ≠ 8192
    ∧ meanSquare [0, 0, 0] = 1
    ∧ (1 : ℚ) ^ 2 = meanSquare [0, 0, 0]
    ∧ satSpec.length ≠ 8192
    ∧ (analyzeCycle allOn satSpec 12400 1 emptyGate 0 10000).2 = 1/4
    ∧ ((analyzeCycle allOn satSpec 12400 1 emptyGate 0 10000).1.1).length = 3 := by
  have hm : meanSquare [0, 0, 0] = 1 := by
    norm_num [meanSquare, List.foldl]
  refine ⟨by decide, hm, by rw [hm]; norm_num, by decide, ?_, ?_⟩
  · show levelStep 0 (targetLevel 1) = 1/4
    norm_num [levelStep, targetLevel, min_def]
  · show (runCycle allOn satSpec 12400 emptyGate 10000).1.length = 3
    rw [runCycle_satSpec]
    rfl

/-- C9 (amended): the engine has no malformed-frame path at all. Every frame,
whatever its length, is processed identically: the smoothed level is updated
from the frame's RMS and the classifiers and gate run on the spectrum; no
error signal exists and no cycle is ever skipped (byte samples cannot be
non-finite). -/
theorem C9_frame_validation (m : Mask) (fd : List ℕ) (sr rms : ℚ)
    (st : GateState) (level : ℚ) (now : ℕ) (hlen : fd.length ≠ 8192) :
    (analyzeCycle m fd sr rms st level now).2 = levelStep level (targetLevel rms)
    ∧ (analyzeCycle m fd sr rms st level now).1 = runCycle m fd sr st now :=
  ⟨rfl, rfl⟩

/-- C9 witness: the 16-bin saturated spectrum (wrong length) still has its
cycle's level output computed by the smoothing step. -/
theorem C9_frame_validation_witness :
    (analyzeCycle allOn satSpec 12400 1 emptyGate 0 10000).2
      = levelStep 0 (targetLevel 1) :=
  (C9_frame_validation allOn satSpec 12400 1 emptyGate 0 10000 (by decide)).1

end SmartSound
